import Mathlib

/-!
Shallow embedding of the MorpheusHelper rule-command cog (src/cogs/rules.py)
and the warning record model (src/models/mod.py).

Each Discord command handler is embedded as a pure function from its decision
inputs (permission flags, the target message's authorship, the results of the
`read_normal_message` / `read_complete_message` helpers, and whether the
platform call succeeds) to an `Outcome`: the ordered trace of platform actions
the handler performed together with the `CommandError` it raised, if any.
External collaborators (the permission-level decorator, `guild_only`, the
translation string table, the Discord SDK) are modelled at the boundary, as the
values they hand the handler.
-/

set_option maxHeartbeats 1000000

namespace Rules

/-- Keys of the translation string table (`translations.<key>`) referenced by
the handlers in src/cogs/rules.py. -/
inductive TransKey
  | rule
  | send_message
  | msg_sent
  | send_embed_title
  | send_embed_content
  | send_new_message
  | msg_edited
  | msg_deleted
  | could_not_send_message
  | msg_could_not_be_sent
  | invalid_color
  | could_not_send_embed
  | title_too_long
  | could_not_edit
  | cannot_edit_files
  | cannot_delete_dm
  | could_not_delete
  deriving DecidableEq, Repr

/-- A content embed as built by the handlers: `Embed(title=..., description=...)`
with an optionally assigned `colour`. -/
structure EmbedData where
  title : String
  description : String
  colour : Option Nat
  deriving DecidableEq, Repr

/-- One platform action performed by a handler, in program order.
`statusPost`/`statusEdit` carry the status embed's description as the list of
translation lines accumulated so far (the source appends lines to a single
description string). `prompt` is a `read_normal_message` call awaiting the
invoker. `channelSend` is `channel.send(...)`; `targetEdit` is
`message.edit(...)` on the target message (`clearFiles` records whether
`files=[]` was passed); `targetDelete` is `message.delete()`; `successPost` is
the final `ctx.send` of a fresh result embed. -/
inductive Action
  | statusPost (lines : List TransKey)
  | statusEdit (lines : List TransKey)
  | prompt
  | channelSend (content : Option String) (files : List String) (embed : Option EmbedData)
  | targetEdit (content : Option String) (clearFiles : Bool) (embed : Option EmbedData)
  | targetDelete
  | successPost (line : TransKey)
  deriving DecidableEq, Repr

/-- Result of one handler invocation: the platform actions performed, and the
`CommandError` translation key raised (`none` on success). -/
structure Outcome where
  trace : List Action
  error : Option TransKey
  deriving DecidableEq, Repr

/-- The `color: Optional[Union[Color, str]]` parameter: absent, a native
`discord.Color` (already an integer value), or a caller-supplied string. -/
inductive ColorArg
  | noColor
  | native (value : Nat)
  | str (s : String)
  deriving DecidableEq, Repr

/-- The characters of the regex character class `[0-9a-fA-F]`. -/
def hexDigits : List Char :=
  ['9', '8', '7', '6', '5', '4', '3', '2', '1', '0'].reverse ++
    ['f', 'e', 'd', 'c', 'b', 'a'].reverse ++
    ['F', 'E', 'D', 'C', 'B', 'A'].reverse

/-- Membership in the character class `[0-9a-fA-F]`. -/
def isHexDigitChar (c : Char) : Bool :=
  decide (c ∈ hexDigits)

/-- Python `re.match(r"^[0-9a-fA-F]{6}$", s)` as a Boolean: the match is
anchored at the start, consumes exactly six characters of the class, and `$`
(without `re.MULTILINE`) matches at the end of the string or just before a
single newline at the end of the string. Hence: six hex digits, optionally
followed by one trailing newline. -/
def reMatchColor (s : String) : Bool :=
  (s.data.length == 6 && s.data.all isHexDigitChar) ||
    (s.data.length == 7 && (s.data.take 6).all isHexDigitChar
      && s.data.getLast? == some '\n')

/-- Modelled from the spec's words, for comparison with `reMatchColor`: the
string "matches `^[0-9a-fA-F]{6}$` exactly (no `#` prefix, no shorthand,
nothing else)", i.e. it consists of exactly six hex digits. -/
def specColorExact (s : String) : Bool :=
  s.data.length == 6 && s.data.all isHexDigitChar

/-- Python `str.strip()` on a character list: drop leading and trailing
whitespace. -/
def pyStrip (cs : List Char) : List Char :=
  ((cs.dropWhile Char.isWhitespace).reverse.dropWhile Char.isWhitespace).reverse

/-- Value of one hex digit. -/
def hexDigitVal (c : Char) : Nat :=
  if '0' ≤ c && c ≤ '9' then c.toNat - '0'.toNat
  else if 'a' ≤ c && c ≤ 'f' then c.toNat - 'a'.toNat + 10
  else c.toNat - 'A'.toNat + 10

/-- Base-16 value of a list of hex digits. -/
def hexVal (cs : List Char) : Nat :=
  cs.foldl (fun acc c => 16 * acc + hexDigitVal c) 0

/-- Python `int(s, 16)`: surrounding whitespace is stripped, then the digits
are read in base 16 (only applied by the handlers to strings `reMatchColor`
accepted, which carry no sign or `0x` prefix). -/
def pyIntBase16 (s : String) : Nat :=
  hexVal (pyStrip s.data)

/-- The shared color-argument handling of `send_embed` and `edit_embed`:
`isinstance(color, str)` strings must match the regex and are parsed with
`int(color, 16)`, otherwise `CommandError(translations.invalid_color)` is
raised; a native color or an absent color passes through. -/
def colorResolve : ColorArg → Except TransKey (Option Nat)
  | .noColor => .ok none
  | .native v => .ok (some v)
  | .str s =>
    if reMatchColor s then .ok (some (pyIntBase16 s)) else .error .invalid_color

/-- `send_text(ctx, channel)`: `canSend` is
`channel.permissions_for(channel.guild.me).send_messages`; `promptRes` is what
`read_normal_message` returns (content, files); `deliverOk` is whether
`channel.send` raises `HTTPException`/`Forbidden`. -/
def send_text (canSend : Bool) (promptRes : String × List String)
    (deliverOk : Bool) : Outcome :=
  if !canSend then ⟨[], some .could_not_send_message⟩
  else
    match promptRes with
    | (content, files) =>
      if deliverOk then
        ⟨[.statusPost [.send_message], .prompt,
          .channelSend (some content) files none,
          .statusEdit [.send_message, .msg_sent]], none⟩
      else
        ⟨[.statusPost [.send_message], .prompt], some .msg_could_not_be_sent⟩

/-- `send_embed(ctx, channel, color=None)`: the color argument is validated
first, then the bot's `send_messages` and `embed_links` permissions in the
target channel, then the title is prompted (files ignored), checked against
the 256-character limit, the body is prompted (files ignored), and the embed
is sent. -/
def send_embed (canSend canEmbed : Bool) (color : ColorArg)
    (titleRes bodyRes : String × List String) (deliverOk : Bool) : Outcome :=
  match colorResolve color with
  | .error e => ⟨[], some e⟩
  | .ok colorVal =>
    if !canSend then ⟨[], some .could_not_send_message⟩
    else if !canEmbed then ⟨[], some .could_not_send_embed⟩
    else
      match titleRes with
      | (title, _) =>
        if title.length > 256 then
          ⟨[.statusPost [.send_embed_title], .prompt], some .title_too_long⟩
        else
          match bodyRes with
          | (content, _) =>
            if deliverOk then
              ⟨[.statusPost [.send_embed_title], .prompt,
                .statusEdit [.send_embed_title, .send_embed_content], .prompt,
                .channelSend none [] (some ⟨title, content, colorVal⟩),
                .statusEdit [.send_embed_title, .send_embed_content, .msg_sent]],
               none⟩
            else
              ⟨[.statusPost [.send_embed_title], .prompt,
                .statusEdit [.send_embed_title, .send_embed_content], .prompt],
               some .msg_could_not_be_sent⟩

/-- `edit_text(ctx, message)`: fails with `could_not_edit` unless the target
message is authored by the bot; then prompts for replacement content, fails
with `cannot_edit_files` if the response carries files, else edits the target
(`content=content, embed=None`; the `files` keyword is not passed). -/
def edit_text (authorIsBot : Bool) (promptRes : String × List String) : Outcome :=
  if !authorIsBot then ⟨[], some .could_not_edit⟩
  else
    match promptRes with
    | (content, files) =>
      if !files.isEmpty then
        ⟨[.statusPost [.send_new_message], .prompt], some .cannot_edit_files⟩
      else
        ⟨[.statusPost [.send_new_message], .prompt,
          .targetEdit (some content) false none,
          .statusEdit [.send_new_message, .msg_edited]], none⟩

/-- `edit_embed(ctx, message, color=None)`: fails with `could_not_edit` unless
the target is authored by the bot; then the color argument is validated, the
title and body are prompted exactly as in `send_embed` (files ignored), and
the target is edited with `content=None, files=[], embed=send_embed`. -/
def edit_embed (authorIsBot : Bool) (color : ColorArg)
    (titleRes bodyRes : String × List String) : Outcome :=
  if !authorIsBot then ⟨[], some .could_not_edit⟩
  else
    match colorResolve color with
    | .error e => ⟨[], some e⟩
    | .ok colorVal =>
      match titleRes with
      | (title, _) =>
        if title.length > 256 then
          ⟨[.statusPost [.send_embed_title], .prompt], some .title_too_long⟩
        else
          match bodyRes with
          | (content, _) =>
            ⟨[.statusPost [.send_embed_title], .prompt,
              .statusEdit [.send_embed_title, .send_embed_content], .prompt,
              .targetEdit none true (some ⟨title, content, colorVal⟩),
              .statusEdit [.send_embed_title, .send_embed_content, .msg_edited]],
             none⟩

/-- `edit_copy(ctx, message, source)`: fails with `could_not_edit` unless the
target is authored by the bot; `sourceRes` is what `read_complete_message`
returns for the source message (content, files, embed); fails with
`cannot_edit_files` if the source carries files, else edits the target with
the source's content and embed. -/
def edit_copy (authorIsBot : Bool)
    (sourceRes : Option String × List String × Option EmbedData) : Outcome :=
  if !authorIsBot then ⟨[], some .could_not_edit⟩
  else
    match sourceRes with
    | (content, files, embed) =>
      if !files.isEmpty then ⟨[], some .cannot_edit_files⟩
      else
        ⟨[.targetEdit content false embed, .successPost .msg_edited], none⟩

/-- `delete(ctx, message)`: fails with `cannot_delete_dm` when
`message.guild is None`; then fails with `could_not_delete` when the target is
not authored by the bot and the bot lacks `manage_messages` in the target's
channel (`channel.permissions_for(message.guild.me)`); otherwise deletes the
message and posts a success embed. -/
def delete (guildPresent authorIsBot manageMessages : Bool) : Outcome :=
  if !guildPresent then ⟨[], some .cannot_delete_dm⟩
  else if !authorIsBot && !manageMessages then ⟨[], some .could_not_delete⟩
  else ⟨[.targetDelete, .successPost .msg_deleted], none⟩

end Rules

namespace Models

/-- The `warn` table row (src/models/mod.py): `id` is the autoincrementing
primary key, assigned by the database at commit, hence `Option Nat` and `none`
while the row is only pending. `timestamp` is `Option` so that being non-null
is a provable property; `datetime.now()` is modelled as an abstract tick. -/
structure Warn where
  id : Option Nat
  member : Int
  mod : Int
  timestamp : Option Nat
  reason : String
  deriving DecidableEq, Repr

/-- The shared persistence session: the ordered pending-insert set that
`db.add` appends to. -/
structure Session where
  pending : List Warn
  deriving DecidableEq, Repr

/-- `Warn.create(member, mod, reason)`: builds a row with the given fields and
`timestamp=datetime.now()` (the `now` argument), queues it on the session via
`db.add(row)`, and returns it. The `id` column is left unassigned. -/
def Warn.create (member mod : Int) (reason : String) (now : Nat)
    (db : Session) : Warn × Session :=
  let row : Warn := ⟨none, member, mod, some now, reason⟩
  (row, ⟨db.pending ++ [row]⟩)

/-- Commit-time behaviour of the autoincrementing primary key: each pending
row receives the next free id, in insertion order. -/
def assignIds : Nat → List Warn → List Warn
  | _, [] => []
  | n, w :: ws => { w with id := some n } :: assignIds (n + 1) ws

end Models

section HelperLemmas

/-- Every character of the class `[0-9a-fA-F]` is non-whitespace. -/
theorem mem_hexDigits_not_whitespace (c : Char) (h : c ∈ Rules.hexDigits) :
    c.isWhitespace = false := by
  simp only [Rules.hexDigits, List.reverse_cons, List.reverse_nil, List.nil_append,
    List.append_assoc, List.cons_append, List.singleton_append] at h
  fin_cases h <;> decide

/-- `dropWhile isWhitespace` is the identity on a list of hex digits. -/
theorem dropWhile_whitespace_of_hex (cs : List Char)
    (h : ∀ c ∈ cs, Rules.isHexDigitChar c = true) :
    cs.dropWhile Char.isWhitespace = cs := by
  cases cs with
  | nil => rfl
  | cons c l =>
    have hc : c.isWhitespace = false := by
      apply mem_hexDigits_not_whitespace
      have hmem := h c (List.mem_cons_self c l)
      simpa [Rules.isHexDigitChar] using hmem
    simp [List.dropWhile_cons, hc]

/-- Python strip is the identity on a list of hex digits. -/
theorem pyStrip_of_hex (cs : List Char)
    (h : ∀ c ∈ cs, Rules.isHexDigitChar c = true) :
    Rules.pyStrip cs = cs := by
  unfold Rules.pyStrip
  rw [dropWhile_whitespace_of_hex cs h,
    dropWhile_whitespace_of_hex cs.reverse
      (fun c hc => h c (List.mem_reverse.mp hc)),
    List.reverse_reverse]

/-- On an all-hex string, `int(s, 16)` is the base-16 value of its digits. -/
theorem pyIntBase16_of_hex (s : String)
    (h : s.data.all Rules.isHexDigitChar = true) :
    Rules.pyIntBase16 s = Rules.hexVal s.data := by
  unfold Rules.pyIntBase16
  rw [pyStrip_of_hex s.data (by simpa [List.all_eq_true] using h)]

/-- A string of exactly six hex digits is accepted by the Python regex match. -/
theorem reMatchColor_of_specColorExact (s : String)
    (h : Rules.specColorExact s = true) :
    Rules.reMatchColor s = true := by
  unfold Rules.specColorExact at h
  unfold Rules.reMatchColor
  rw [h, Bool.true_or]

end HelperLemmas

/-- C1: on a guild message, `delete` fails with `could_not_delete` exactly when
the target message is not authored by the bot and the bot lacks
message-management permission in the target's channel; otherwise it deletes
the message and posts a success embed. -/
theorem C1_delete_guild_message : ∀ authorIsBot manageMessages : Bool,
    Rules.delete true authorIsBot manageMessages =
      if authorIsBot || manageMessages then
        ⟨[Rules.Action.targetDelete, Rules.Action.successPost Rules.TransKey.msg_deleted], none⟩
      else ⟨[], some Rules.TransKey.could_not_delete⟩ := by
  decide

/-- Witness for C1 at a concrete input: with management permission the message
is deleted. -/
theorem C1_delete_guild_message_witness :
    Rules.delete true false true =
      ⟨[Rules.Action.targetDelete, Rules.Action.successPost Rules.TransKey.msg_deleted], none⟩ :=
  (C1_delete_guild_message false true).trans (by decide)

/-- C2: `edit text`, `edit embed` and `edit copy` on a target message not
authored by the bot fail with `could_not_edit`, whatever the other inputs,
and never issue an edit on the target message. -/
theorem C2_edit_requires_bot_author
    (pr : String × List String) (col : Rules.ColorArg)
    (t b : String × List String)
    (src : Option String × List String × Option Rules.EmbedData) :
    Rules.edit_text false pr = ⟨[], some Rules.TransKey.could_not_edit⟩ ∧
    Rules.edit_embed false col t b = ⟨[], some Rules.TransKey.could_not_edit⟩ ∧
    Rules.edit_copy false src = ⟨[], some Rules.TransKey.could_not_edit⟩ ∧
    (∀ c cf e, Rules.Action.targetEdit c cf e ∉ (Rules.edit_text false pr).trace) ∧
    (∀ c cf e, Rules.Action.targetEdit c cf e ∉ (Rules.edit_embed false col t b).trace) ∧
    (∀ c cf e, Rules.Action.targetEdit c cf e ∉ (Rules.edit_copy false src).trace) := by
  refine ⟨rfl, rfl, rfl, ?_, ?_, ?_⟩ <;> intro c cf e <;>
    simp [Rules.edit_text, Rules.edit_embed, Rules.edit_copy]

/-- Witness for C2 at a concrete input. -/
theorem C2_edit_requires_bot_author_witness :
    Rules.edit_text false ("x", []) = ⟨[], some Rules.TransKey.could_not_edit⟩ :=
  (C2_edit_requires_bot_author ("x", []) Rules.ColorArg.noColor
    ("t", []) ("b", []) (none, [], none)).1

/-- C5: `send text` when the bot lacks send permission in the target channel
fails with `could_not_send_message`, posts no status embed, and never invokes
the message-reading helper. -/
theorem C5_send_text_no_permission (pr : String × List String) (deliverOk : Bool) :
    Rules.send_text false pr deliverOk = ⟨[], some Rules.TransKey.could_not_send_message⟩ ∧
    Rules.Action.prompt ∉ (Rules.send_text false pr deliverOk).trace ∧
    (∀ lines, Rules.Action.statusPost lines ∉ (Rules.send_text false pr deliverOk).trace) := by
  refine ⟨rfl, ?_, ?_⟩ <;> simp [Rules.send_text]

/-- Witness for C5 at a concrete input. -/
theorem C5_send_text_no_permission_witness :
    Rules.send_text false ("hello", ["f.png"]) true =
      ⟨[], some Rules.TransKey.could_not_send_message⟩ :=
  (C5_send_text_no_permission ("hello", ["f.png"]) true).1

/-- C6: `edit text` whose prompt response carries at least one file fails with
`cannot_edit_files` after the status post and prompt, and never issues an edit
on the target message. -/
theorem C6_edit_text_rejects_files (content f : String) (fs : List String) :
    Rules.edit_text true (content, f :: fs) =
      ⟨[Rules.Action.statusPost [Rules.TransKey.send_new_message], Rules.Action.prompt],
       some Rules.TransKey.cannot_edit_files⟩ ∧
    (∀ c cf e, Rules.Action.targetEdit c cf e ∉ (Rules.edit_text true (content, f :: fs)).trace) := by
  refine ⟨rfl, ?_⟩
  intro c cf e
  simp [Rules.edit_text]

/-- Witness for C6 at a concrete input. -/
theorem C6_edit_text_rejects_files_witness :
    Rules.edit_text true ("new text", ["a.png"]) =
      ⟨[Rules.Action.statusPost [Rules.TransKey.send_new_message], Rules.Action.prompt],
       some Rules.TransKey.cannot_edit_files⟩ :=
  (C6_edit_text_rejects_files "new text" "a.png" []).1

/-- C7: `Warn.create(member, mod, reason)` always succeeds, returns a row whose
`member`, `mod` and `reason` equal the arguments, with a non-null creation
timestamp, no assigned id, and exactly one pending insert appended to the
session as its only side effect. -/
theorem C7_warn_create (member mod : Int) (reason : String) (now : Nat)
    (db : Models.Session) :
    (Models.Warn.create member mod reason now db).1.member = member ∧
    (Models.Warn.create member mod reason now db).1.mod = mod ∧
    (Models.Warn.create member mod reason now db).1.reason = reason ∧
    (Models.Warn.create member mod reason now db).1.timestamp = some now ∧
    (Models.Warn.create member mod reason now db).1.timestamp ≠ none ∧
    (Models.Warn.create member mod reason now db).1.id = none ∧
    (Models.Warn.create member mod reason now db).2.pending =
      db.pending ++ [(Models.Warn.create member mod reason now db).1] ∧
    (Models.Warn.create member mod reason now db).2.pending.length =
      db.pending.length + 1 := by
  refine ⟨rfl, rfl, rfl, rfl, by simp [Models.Warn.create], rfl, rfl,
    by simp [Models.Warn.create]⟩

/-- Witness for C7 at the spec's example `create(42, 7, "spam")`. -/
theorem C7_warn_create_witness :
    (Models.Warn.create 42 7 "spam" 5 ⟨[]⟩).1.member = 42 ∧
    (Models.Warn.create 42 7 "spam" 5 ⟨[]⟩).1.mod = 7 ∧
    (Models.Warn.create 42 7 "spam" 5 ⟨[]⟩).1.reason = "spam" ∧
    (Models.Warn.create 42 7 "spam" 5 ⟨[]⟩).1.timestamp ≠ none ∧
    (Models.Warn.create 42 7 "spam" 5 ⟨[]⟩).1.id = none :=
  have h := C7_warn_create 42 7 "spam" 5 ⟨[]⟩
  ⟨h.1, h.2.1, h.2.2.1, h.2.2.2.2.1, h.2.2.2.2.2.1⟩

/-- C8: two `Warn.create` calls with identical arguments queue two records
(no deduplication), and the autoincrementing key assigns them distinct ids at
commit. -/
theorem C8_warn_create_not_deduplicated (member mod : Int) (reason : String)
    (now1 now2 n : Nat) :
    ((Models.Warn.create member mod reason now2
        (Models.Warn.create member mod reason now1 ⟨[]⟩).2).2).pending.length = 2 ∧
    Models.assignIds n ((Models.Warn.create member mod reason now2
        (Models.Warn.create member mod reason now1 ⟨[]⟩).2).2).pending =
      [⟨some n, member, mod, some now1, reason⟩,
       ⟨some (n + 1), member, mod, some now2, reason⟩] ∧
    n ≠ n + 1 := by
  refine ⟨rfl, rfl, by omega⟩

/-- Witness for C8 at the spec's example arguments. -/
theorem C8_warn_create_not_deduplicated_witness :
    Models.assignIds 1 ((Models.Warn.create 42 7 "spam" 9
        (Models.Warn.create 42 7 "spam" 9 ⟨[]⟩).2).2).pending =
      [⟨some 1, 42, 7, some 9, "spam"⟩, ⟨some 2, 42, 7, some 9, "spam"⟩] :=
  (C8_warn_create_not_deduplicated 42 7 "spam" 9 9 1).2.1

/-- C9: in `edit embed` the bot-authorship check precedes color validation: a
non-bot-authored target fails with `could_not_edit` for every color string,
and `invalid_color` is never raised for such a target. -/
theorem C9_edit_embed_author_check_first (s : String) (t b : String × List String) :
    Rules.edit_embed false (Rules.ColorArg.str s) t b =
      ⟨[], some Rules.TransKey.could_not_edit⟩ ∧
    (Rules.edit_embed false (Rules.ColorArg.str s) t b).error ≠
      some Rules.TransKey.invalid_color := by
  refine ⟨rfl, ?_⟩
  show (Rules.Outcome.mk [] (some Rules.TransKey.could_not_edit)).error ≠
    some Rules.TransKey.invalid_color
  decide

/-- Witness for C9 at an invalid color string. -/
theorem C9_edit_embed_author_check_first_witness :
    Rules.edit_embed false (Rules.ColorArg.str "#fff") ("t", []) ("b", []) =
      ⟨[], some Rules.TransKey.could_not_edit⟩ :=
  (C9_edit_embed_author_check_first "#fff" ("t", []) ("b", [])).1

/-- C10: files uploaded with the title or body prompt responses of `send embed`
and `edit embed` are silently discarded: the outcome equals that of the same
invocation with no files attached. -/
theorem C10_prompt_files_discarded (canSend canEmbed authorIsBot deliverOk : Bool)
    (col : Rules.ColorArg) (title body : String) (tf bf : List String) :
    Rules.send_embed canSend canEmbed col (title, tf) (body, bf) deliverOk =
      Rules.send_embed canSend canEmbed col (title, []) (body, []) deliverOk ∧
    Rules.edit_embed authorIsBot col (title, tf) (body, bf) =
      Rules.edit_embed authorIsBot col (title, []) (body, []) := by
  exact ⟨rfl, rfl⟩

/-- Witness for C10 at a concrete input. -/
theorem C10_prompt_files_discarded_witness :
    Rules.send_embed true true Rules.ColorArg.noColor ("t", ["a.png"]) ("b", ["c.png"]) true =
      Rules.send_embed true true Rules.ColorArg.noColor ("t", []) ("b", []) true :=
  (C10_prompt_files_discarded true true true true Rules.ColorArg.noColor "t" "b"
    ["a.png"] ["c.png"]).1

/-- C3 counterexample: `"ff0000\n"` does not consist of exactly six hex digits,
yet Python's `re.match` accepts it (`$` matches before the trailing newline)
and both `send embed` and `edit embed` proceed without raising
`invalid_color`. -/
theorem C3_color_exact_counterexample :
    Rules.specColorExact "ff0000\n" = false ∧
    Rules.reMatchColor "ff0000\n" = true ∧
    (Rules.send_embed true true (Rules.ColorArg.str "ff0000\n") ("t", []) ("b", []) true).error ≠
      some Rules.TransKey.invalid_color ∧
    (Rules.edit_embed true (Rules.ColorArg.str "ff0000\n") ("t", []) ("b", [])).error ≠
      some Rules.TransKey.invalid_color := by
  decide

/-- C3 (amended): a color string is accepted by `send embed`/`edit embed`
(on a bot-authored target for `edit embed`) iff it matches the Python regex
semantics of `^[0-9a-fA-F]{6}$`: six hex digits optionally followed by one
trailing newline. On rejection the command fails with `invalid_color` and
performs no platform action; on acceptance `invalid_color` is never raised. -/
theorem C3_color_acceptance (s : String) (canSend canEmbed deliverOk : Bool)
    (t b : String × List String) :
    (Rules.reMatchColor s = false →
      Rules.send_embed canSend canEmbed (Rules.ColorArg.str s) t b deliverOk =
        ⟨[], some Rules.TransKey.invalid_color⟩ ∧
      Rules.edit_embed true (Rules.ColorArg.str s) t b =
        ⟨[], some Rules.TransKey.invalid_color⟩) ∧
    (Rules.reMatchColor s = true →
      (Rules.send_embed canSend canEmbed (Rules.ColorArg.str s) t b deliverOk).error ≠
        some Rules.TransKey.invalid_color ∧
      (Rules.edit_embed true (Rules.ColorArg.str s) t b).error ≠
        some Rules.TransKey.invalid_color) := by
  obtain ⟨title, tf⟩ := t
  obtain ⟨body, bf⟩ := b
  constructor
  · intro h
    constructor <;>
      simp [Rules.send_embed, Rules.edit_embed, Rules.colorResolve, h]
  · intro h
    constructor <;>
      · simp only [Rules.send_embed, Rules.edit_embed, Rules.colorResolve, h, if_true]
        cases canSend <;> cases canEmbed <;> cases deliverOk <;>
          simp <;> split <;> simp

/-- Witness for C3 (amended): `"zzzzzz"` is rejected with `invalid_color` and no
platform action; `"ff0000"` is accepted. -/
theorem C3_color_acceptance_witness :
    Rules.send_embed true true (Rules.ColorArg.str "zzzzzz") ("t", []) ("b", []) true =
      ⟨[], some Rules.TransKey.invalid_color⟩ ∧
    (Rules.send_embed true true (Rules.ColorArg.str "ff0000") ("t", []) ("b", []) true).error ≠
      some Rules.TransKey.invalid_color :=
  ⟨((C3_color_acceptance "zzzzzz" true true true ("t", []) ("b", [])).1 (by decide)).1,
   ((C3_color_acceptance "ff0000" true true true ("t", []) ("b", [])).2 (by decide)).1⟩

/-- C4: for a color string of exactly six hex digits and an in-limit title,
`send embed` sends, and `edit embed` installs, an embed whose colour is the
string's base-16 integer value. -/
theorem C4_valid_color_value (s title body : String) (tf bf : List String)
    (hs : Rules.specColorExact s = true) (ht : title.length ≤ 256) :
    Rules.send_embed true true (Rules.ColorArg.str s) (title, tf) (body, bf) true =
      ⟨[.statusPost [.send_embed_title], .prompt,
        .statusEdit [.send_embed_title, .send_embed_content], .prompt,
        .channelSend none [] (some ⟨title, body, some (Rules.hexVal s.data)⟩),
        .statusEdit [.send_embed_title, .send_embed_content, .msg_sent]], none⟩ ∧
    Rules.edit_embed true (Rules.ColorArg.str s) (title, tf) (body, bf) =
      ⟨[.statusPost [.send_embed_title], .prompt,
        .statusEdit [.send_embed_title, .send_embed_content], .prompt,
        .targetEdit none true (some ⟨title, body, some (Rules.hexVal s.data)⟩),
        .statusEdit [.send_embed_title, .send_embed_content, .msg_edited]], none⟩ := by
  have hall : s.data.all Rules.isHexDigitChar = true := by
    unfold Rules.specColorExact at hs
    simp only [Bool.and_eq_true] at hs
    exact hs.2
  have hm : Rules.reMatchColor s = true := reMatchColor_of_specColorExact s hs
  have hv : Rules.pyIntBase16 s = Rules.hexVal s.data := pyIntBase16_of_hex s hall
  have hnt : ¬ (title.length > 256) := by omega
  constructor <;>
    simp [Rules.send_embed, Rules.edit_embed, Rules.colorResolve, hm, hv, hnt]

/-- Witness for C4 at the spec's example: `"ff0000"` yields colour 16711680. -/
theorem C4_valid_color_value_witness :
    Rules.specColorExact "ff0000" = true ∧
    Rules.send_embed true true (Rules.ColorArg.str "ff0000") ("t", []) ("b", []) true =
      ⟨[.statusPost [.send_embed_title], .prompt,
        .statusEdit [.send_embed_title, .send_embed_content], .prompt,
        .channelSend none [] (some ⟨"t", "b", some 16711680⟩),
        .statusEdit [.send_embed_title, .send_embed_content, .msg_sent]], none⟩ :=
  ⟨by decide,
   ((C4_valid_color_value "ff0000" "t" "b" [] [] (by decide) (by decide)).1).trans (by decide)⟩
